import Mathlib

/-!
# Verification of the pottery catalog backend

Shallow embedding of the cross-store coordinator of the pottery backend:
the Firestore item/photo metadata service (`services/firestore_service.py`),
the GCS blob service (`services/gcs_service.py`) and the photo sagas of
`routers/photos.py`, together with the pydantic data model of `models.py`.

Modelling conventions:
* A Python `datetime` is an absolute instant (epoch seconds) plus an optional
  `tzinfo` (UTC offset in seconds and an optional zone name); `tz = none`
  models a naive datetime.
* A Firestore document is a Lean structure; a dictionary key that may be
  absent is an `Option` field (`none` = key not present in the document).
* pydantic models with the default configuration (`extra = "ignore"`) drop
  unknown constructor keywords, omit undeclared keys from `model_dump()`,
  and raise `AttributeError` when an undeclared attribute is read.  The
  `Photo` model in `models.py` declares only
  `stage, imageNote, fileName, id, gcsPath, uploadedAt` — in particular it
  does NOT declare `isPrimary`, which `routers/photos.py` nevertheless
  passes and reads.
* External store calls that can fail are parametrized by explicit outcome
  arguments; a raised exception is an `Except.error`.
-/

namespace Pottery

/-- Python `tzinfo`: a fixed UTC offset in seconds plus the result of
`tzname()` (`none` when `tzname()` returns `None`). -/
structure TZInfo where
  offsetSeconds : Int
  name : Option String
deriving DecidableEq, Repr

/-- Python `datetime`: the UTC instant it denotes (epoch seconds) and its
optional `tzinfo` (`none` = naive datetime). -/
structure PyDateTime where
  instant : Int
  tz : Option TZInfo
deriving DecidableEq, Repr

/-- The `tzinfo` produced by `datetime.timezone.utc`. -/
def utcTZ : TZInfo := { offsetSeconds := 0, name := some "UTC" }

/-- The Firestore client persists a timezone-aware datetime as a UTC
timestamp; reading it back yields an aware datetime at the same instant
whose `tzinfo` is UTC. -/
def fsStoreDT (dt : PyDateTime) : PyDateTime :=
  { instant := dt.instant, tz := some utcTZ }

/-- Two-digit zero padding used by the `f"{...:02d}"` format specifiers. -/
def pad2 (n : Nat) : String :=
  if n < 10 then "0" ++ toString n else toString n

/-- The offset string built by `get_timezone_identifier` for a non-zero
offset: sign, `divmod(abs(offset_seconds), 3600)` hours, minutes. -/
def formatOffset (offsetSeconds : Int) : String :=
  let s : Nat := offsetSeconds.natAbs
  let hours : Nat := s / 3600
  let minutes : Nat := (s % 3600) / 60
  let sign : String := if 0 ≤ offsetSeconds then "+" else "-"
  sign ++ pad2 hours ++ ":" ++ pad2 minutes

/-- `get_timezone_identifier` of `services/firestore_service.py`: extracts a
timezone identifier from an (optional) datetime.  Returns `none` for a
missing or naive datetime; maps a zero offset to `"UTC"`, other simple
offsets to `"+HH:MM"` / `"-HH:MM"`, and keeps a proper zone name. -/
def get_timezone_identifier : Option PyDateTime → Option String
  | none => none
  | some dt =>
    match dt.tz with
    | none => none
    | some tzinfo =>
      match tzinfo.name with
      | some tzName =>
          if tzName = "UTC" ∨ tzName = "GMT" ∨
              tzName.contains '+' ∨ tzName.contains '-' then
            if tzinfo.offsetSeconds = 0 then some "UTC"
            else some (formatOffset tzinfo.offsetSeconds)
          else
            some tzName
      | none =>
          if tzinfo.offsetSeconds = 0 then some "UTC"
          else some (formatOffset tzinfo.offsetSeconds)

/-! ## Photo documents and the pydantic `Photo` model -/

/-- A photo entry as stored inside an item document's `photos` array.
`uploadedTimezone` and `isPrimary` are keys that some writers add and
others do not; `none` means the key is absent from the stored dictionary. -/
structure PhotoDoc where
  id : String
  stage : String
  imageNote : Option String := none
  fileName : Option String := none
  gcsPath : String
  uploadedAt : PyDateTime
  uploadedTimezone : Option String := none
  isPrimary : Option Bool := none
deriving DecidableEq, Repr

/-- The pydantic `Photo` model of `models.py`, exactly its declared fields:
`stage`, `imageNote`, `fileName`, `id`, `gcsPath`, `uploadedAt`.
No `isPrimary` field is declared. -/
structure PhotoModel where
  stage : String
  imageNote : Option String
  fileName : Option String
  id : String
  gcsPath : String
  uploadedAt : PyDateTime
deriving DecidableEq, Repr

/-- `Photo(**p)` applied to a stored photo dictionary: pydantic with the
default configuration keeps the declared fields and silently ignores the
unknown keys (`uploadedTimezone`, `isPrimary`). -/
def PhotoModel.parse (d : PhotoDoc) : PhotoModel :=
  { stage := d.stage, imageNote := d.imageNote, fileName := d.fileName,
    id := d.id, gcsPath := d.gcsPath, uploadedAt := d.uploadedAt }

/-- `photo.model_dump()`: a dictionary holding exactly the declared fields;
keys the model does not declare (`uploadedTimezone`, `isPrimary`) are
absent from the dump. -/
def PhotoModel.model_dump (p : PhotoModel) : PhotoDoc :=
  { id := p.id, stage := p.stage, imageNote := p.imageNote,
    fileName := p.fileName, gcsPath := p.gcsPath,
    uploadedAt := p.uploadedAt,
    uploadedTimezone := none, isPrimary := none }

/-- Python-level failures surfaced by the embedded code. -/
inductive PyError where
  | attributeError
  | connectionError
  | upstreamError
deriving DecidableEq, Repr

/-- The attribute read `photo.isPrimary` performed by
`routers/photos.py` (line 110): `Photo` declares no `isPrimary` field, so
pydantic's `BaseModel.__getattr__` raises `AttributeError`. -/
def PhotoModel.attrIsPrimary (_ : PhotoModel) : Except PyError Bool :=
  .error .attributeError

/-- `any(photo.isPrimary for photo in item.photos)`: Python's `any` over a
generator evaluates lazily and short-circuits; an empty list yields
`False` without evaluating any attribute. -/
def anyIsPrimary : List PhotoModel → Except PyError Bool
  | [] => .ok false
  | p :: rest =>
    match p.attrIsPrimary with
    | .error e => .error e
    | .ok true => .ok true
    | .ok false => anyIsPrimary rest

/-- The `Photo(...)` construction in `upload_photo`
(`routers/photos.py` lines 158-166): the `isPrimary` keyword argument is
not a declared field of `Photo`, so pydantic (default `extra = "ignore"`)
silently drops it; `uploadedAt` comes from the model's default factory
(`datetime.now(timezone.utc)`). -/
def mkUploadPhotoModel (photoId gcsPath stage : String)
    (imageNote fileName : Option String) (_isPrimary : Bool)
    (now : PyDateTime) : PhotoModel :=
  { stage := stage, imageNote := imageNote, fileName := fileName,
    id := photoId, gcsPath := gcsPath, uploadedAt := now }

/-! ## Item documents, the pydantic `PotteryItem` model, and the collection -/

/-- `MeasurementDetail` of `models.py` (rational stand-ins for floats: the
claims never compute with them). -/
structure MeasurementDetail where
  height : Option Rat := none
  width : Option Rat := none
  depth : Option Rat := none
deriving DecidableEq, Repr

/-- `Measurements` of `models.py`. -/
structure Measurements where
  greenware : Option MeasurementDetail := none
  bisque : Option MeasurementDetail := none
  final : Option MeasurementDetail := none
deriving DecidableEq, Repr

/-- An item document as stored in the Firestore collection.  Keys that a
writer may leave absent are `Option` fields.  (An entirely empty document
— the `if not item_data` guard of `get_item_by_id` — is not representable
here: every document in this model carries its required fields.) -/
structure ItemDoc where
  user_id : String
  name : String
  clayType : String
  currentStatus : String
  glaze : Option String := none
  location : String
  note : Option String := none
  createdDateTime : PyDateTime
  createdTimezone : Option String := none
  updatedDateTime : Option PyDateTime := none
  measurements : Option Measurements := none
  photos : List PhotoDoc
deriving DecidableEq, Repr

/-- The pydantic `PotteryItem` model of `models.py`: the declared fields of
`PotteryItemBase` plus `id`, `user_id`, `photos`.  As with `Photo`,
undeclared document keys (`createdTimezone`, `updatedDateTime`) are
dropped by the parse. -/
structure PotteryItemModel where
  name : String
  clayType : String
  currentStatus : String
  glaze : Option String
  location : String
  note : Option String
  createdDateTime : PyDateTime
  measurements : Option Measurements
  id : String
  user_id : String
  photos : List PhotoModel
deriving DecidableEq, Repr

/-- `PotteryItem(**item_data)` after `item_data["id"] = doc.id` and
`item_data["photos"] = [Photo(**p) for p in ...]`
(`get_item_by_id` lines 199-204). -/
def parseItem (docId : String) (d : ItemDoc) : PotteryItemModel :=
  { name := d.name, clayType := d.clayType, currentStatus := d.currentStatus,
    glaze := d.glaze, location := d.location, note := d.note,
    createdDateTime := d.createdDateTime, measurements := d.measurements,
    id := docId, user_id := d.user_id,
    photos := d.photos.map PhotoModel.parse }

/-- The Firestore items collection: association list from document id to
document. -/
abbrev Store := List (String × ItemDoc)

/-- Document lookup (`doc_ref.get()`). -/
def storeLookup (s : Store) (docId : String) : Option ItemDoc :=
  match s with
  | [] => none
  | (k, d) :: rest => if k = docId then some d else storeLookup rest docId

/-- Writing a document (`doc_ref.set` / the result of `doc_ref.update`). -/
def storeSet (s : Store) (docId : String) (d : ItemDoc) : Store :=
  match s with
  | [] => [(docId, d)]
  | (k, d₀) :: rest =>
      if k = docId then (k, d) :: rest else (k, d₀) :: storeSet rest docId d

/-- Deleting a document (`doc_ref.delete()`); deleting an absent document
succeeds and changes nothing. -/
def storeErase (s : Store) (docId : String) : Store :=
  match s with
  | [] => []
  | (k, d₀) :: rest =>
      if k = docId then storeErase rest docId
      else (k, d₀) :: storeErase rest docId

/-- `get_item_by_id(item_id, user_id)` of
`backend/services/firestore_service.py` (lines 175-215): a missing
document yields `None`; when `user_id` is given (and truthy, per Python's
`if user_id`) and the stored `user_id` differs, the same `None` is
returned.  The function issues a single read and no write. -/
def get_item_by_id (s : Store) (item_id : String) (user_id : Option String) :
    Option PotteryItemModel :=
  match storeLookup s item_id with
  | none => none
  | some d =>
    match user_id with
    | some uid =>
        if uid ≠ "" ∧ d.user_id ≠ uid then none else some (parseItem item_id d)
    | none => some (parseItem item_id d)

/-- `get_item_by_id` as a store operation: the source performs only
`doc_ref.get()`, so the collection is returned unchanged. -/
def get_item_by_id_op (s : Store) (item_id : String) (user_id : Option String) :
    Option PotteryItemModel × Store :=
  (get_item_by_id s item_id user_id, s)

/-- The dumped fields of `PotteryItemCreate` (= `PotteryItemBase`); on
create, the required fields are always present. -/
structure ItemBaseData where
  name : String
  clayType : String
  currentStatus : String := "greenware"
  glaze : Option String := none
  location : String
  note : Option String := none
  createdDateTime : PyDateTime
  measurements : Option Measurements := none
deriving DecidableEq, Repr

/-- `create_item(item_create, user_id)` of
`backend/services/firestore_service.py` (lines 140-172): dumps the create
payload, initializes `photos = []`, attaches `user_id`, stores the origin
timezone identifier separately, and persists the aware datetime (which
the Firestore client normalizes to a UTC timestamp).  `newId` is the
store-assigned document id. -/
def create_item (s : Store) (newId : String) (ic : ItemBaseData)
    (user_id : String) : PotteryItemModel × Store :=
  let doc : ItemDoc :=
    { user_id := user_id, name := ic.name, clayType := ic.clayType,
      currentStatus := ic.currentStatus, glaze := ic.glaze,
      location := ic.location, note := ic.note,
      createdDateTime := fsStoreDT ic.createdDateTime,
      createdTimezone := get_timezone_identifier (some ic.createdDateTime),
      measurements := ic.measurements, photos := [] }
  let returned : PotteryItemModel :=
    { name := ic.name, clayType := ic.clayType,
      currentStatus := ic.currentStatus, glaze := ic.glaze,
      location := ic.location, note := ic.note,
      createdDateTime := ic.createdDateTime, measurements := ic.measurements,
      id := newId, user_id := user_id, photos := [] }
  (returned, storeSet s newId doc)

/-- `item_update.model_dump(exclude_unset=True)` as a partial dictionary:
an outer `none` means the key is absent from the patch.  Nullable fields
use `Option (Option _)` (`some none` = key present with value `None`).
The `createdTimezone` slot exists because `update_item_metadata`
defensively pops it; a dump of `PotteryItemBase` itself can never contain
it (pydantic drops undeclared keys). -/
structure UpdateData where
  name : Option String := none
  clayType : Option String := none
  currentStatus : Option String := none
  glaze : Option (Option String) := none
  location : Option String := none
  note : Option (Option String) := none
  createdDateTime : Option PyDateTime := none
  measurements : Option (Option Measurements) := none
  createdTimezone : Option (Option String) := none
deriving DecidableEq, Repr

/-- `doc_ref.update(update_data)`: field-wise merge of the present keys
into the stored document.  A `createdDateTime` value is persisted through
the Firestore client's UTC normalization; `updatedDateTime` is always
written. -/
def mergeDoc (d : ItemDoc) (u : UpdateData) (now : PyDateTime) : ItemDoc :=
  { d with
    name := u.name.getD d.name,
    clayType := u.clayType.getD d.clayType,
    currentStatus := u.currentStatus.getD d.currentStatus,
    glaze := u.glaze.getD d.glaze,
    location := u.location.getD d.location,
    note := u.note.getD d.note,
    createdDateTime :=
      match u.createdDateTime with
      | some dt => fsStoreDT dt
      | none => d.createdDateTime,
    createdTimezone := u.createdTimezone.getD d.createdTimezone,
    measurements := u.measurements.getD d.measurements,
    updatedDateTime := some now }

/-- `update_item_metadata(item_id, item_update, user_id)` of
`backend/services/firestore_service.py` (lines 218-271): missing document
or ownership mismatch yields `None` with no write; otherwise the patch is
adjusted — `createdTimezone` is recomputed when `createdDateTime` is part
of the patch and popped from the patch when it is not — `updatedDateTime`
is set to now, the merge is written, and the item is read back. -/
def update_item_metadata (s : Store) (item_id : String) (u : UpdateData)
    (user_id : Option String) (now : PyDateTime) :
    Option PotteryItemModel × Store :=
  match storeLookup s item_id with
  | none => (none, s)
  | some d =>
    let proceed : Option PotteryItemModel × Store :=
      let newTZ : Option String := get_timezone_identifier u.createdDateTime
      let u' : UpdateData :=
        if u.createdDateTime.isSome then
          { u with createdTimezone := some newTZ }
        else
          { u with createdTimezone := none }
      let s' := storeSet s item_id (mergeDoc d u' now)
      (get_item_by_id s' item_id user_id, s')
    match user_id with
    | some uid =>
        if uid ≠ "" ∧ d.user_id ≠ uid then (none, s) else proceed
    | none => proceed

/-- `delete_item_and_photos(item_id, user_id)` of
`backend/services/firestore_service.py` (lines 274-310).  `fault = true`
models the `except Exception` path (a raise from the store client during
the ownership read or the delete): the function then returns `False` with
no state change.  Without a fault: an ownership mismatch returns `False`
and leaves the document untouched; otherwise `doc_ref.delete()` succeeds
— also when the document never existed — and the function returns
`True`. -/
def delete_item_and_photos (s : Store) (item_id : String)
    (user_id : Option String) (fault : Bool) : Bool × Store :=
  if fault then (false, s)
  else
    let proceed : Bool × Store := (true, storeErase s item_id)
    match user_id with
    | some uid =>
        if uid ≠ "" then
          match storeLookup s item_id with
          | some d => if d.user_id ≠ uid then (false, s) else proceed
          | none => proceed
        else proceed
    | none => proceed

/-! ## Photo collection operations -/

/-- `firestore.ArrayUnion([photo_data])`: appends the element unless an
equal element is already present. -/
def arrayUnion (photos : List PhotoDoc) (p : PhotoDoc) : List PhotoDoc :=
  if p ∈ photos then photos else photos ++ [p]

/-- The `photo_data` preparation of `add_photo_to_item`
(`backend/services/firestore_service.py` lines 337-357): dump the model
(so only declared keys remain), force a naive `uploadedAt` to UTC, set
`uploadedTimezone = "UTC"`; the Firestore write then persists the aware
datetime as a UTC timestamp.  (`uploadedAt` is always a `datetime` in
this typed model, so the non-datetime fallback branch cannot fire.) -/
def preparePhotoData (p : PhotoModel) : PhotoDoc :=
  let d := p.model_dump
  let d :=
    if d.uploadedAt.tz.isNone then
      { d with uploadedAt := { d.uploadedAt with tz := some utcTZ } }
    else d
  { d with uploadedTimezone := some "UTC",
           uploadedAt := fsStoreDT d.uploadedAt }

/-- `FsFault` models the outcome of a Firestore write call: it either
completes, raises a connection error, or raises some other exception. -/
inductive FsFault where
  | ok
  | connErr
  | otherErr
deriving DecidableEq, Repr

/-- `add_photo_to_item(item_id, photo, user_id)` of
`backend/services/firestore_service.py` (lines 316-386): ownership check
via `get_item_by_id` (a falsy result returns `None`, nothing written);
then the prepared photo dictionary is added with `ArrayUnion` and
`updatedDateTime` is set.  A raise from the update is surfaced
(`ConnectionError` / other); the `NOT_FOUND` raise on a missing document
is swallowed into `None`.  On success the item is read back. -/
def add_photo_to_item (s : Store) (item_id : String) (photo : PhotoModel)
    (user_id : Option String) (now : PyDateTime) (fault : FsFault) :
    Except PyError (Option PotteryItemModel) × Store :=
  let ownershipOk : Bool :=
    match user_id with
    | some uid =>
        if uid ≠ "" then (get_item_by_id s item_id user_id).isSome else true
    | none => true
  if ¬ ownershipOk then (.ok none, s)
  else
    match fault with
    | .connErr => (.error .connectionError, s)
    | .otherErr => (.error .upstreamError, s)
    | .ok =>
      match storeLookup s item_id with
      | none => (.ok none, s)
      | some d =>
        let s' := storeSet s item_id
          { d with photos := arrayUnion d.photos (preparePhotoData photo),
                   updatedDateTime := some now }
        (.ok (get_item_by_id s' item_id user_id), s')

/-- The photo-list effect of `remove_photo_from_item` in
`backend/services/firestore_service.py` (lines 389-472): rewrite-by-id —
every entry whose `id` equals the target is filtered out; when no entry
matches, nothing is written. -/
def removePhotoRewrite (photos : List PhotoDoc) (pid : String) :
    List PhotoDoc :=
  if photos.any (fun p => p.id == pid) then
    photos.filter (fun p => !(p.id == pid))
  else photos

/-- The photo-list effect of `remove_photo_from_item` in the earlier
revision `src/services/firestore_service.py` (lines 297-351): the first
entry whose `id` matches is located and removed with
`firestore.ArrayRemove([that_dict])`, which deletes every array element
equal to that dictionary; when no entry matches, nothing is written. -/
def removePhotoArrayRemove (photos : List PhotoDoc) (pid : String) :
    List PhotoDoc :=
  match photos.find? (fun p => p.id == pid) with
  | none => photos
  | some target => photos.filter (fun p => !(p == target))

/-- The photo-list effect of `set_primary_photo`
(`backend/services/firestore_service.py` lines 548-616): the stored list
is re-parsed through the `Photo` model, each entry is dumped again, the
target entry's dictionary gets `isPrimary = True` and every other entry
gets `isPrimary = False`; when the id is absent, nothing is written.
`setPrimaryEntry` is the loop body for one entry. -/
def setPrimaryEntry (pid : String) (p : PhotoModel) : PhotoDoc :=
  if p.id == pid then { p.model_dump with isPrimary := some true }
  else { p.model_dump with isPrimary := some false }

/-- The full-list effect of `set_primary_photo` (see `setPrimaryEntry`). -/
def setPrimaryList (photos : List PhotoDoc) (pid : String) : List PhotoDoc :=
  let parsed := photos.map PhotoModel.parse
  if parsed.any (fun p => p.id == pid) then parsed.map (setPrimaryEntry pid)
  else photos

/-- The metadata effect of the upload-photo flow on the stored photo list
(`routers/photos.py` lines 107-171 plus `add_photo_to_item`): first
`has_primary` is computed by reading `.isPrimary` on every parsed photo —
which raises `AttributeError` as soon as the list is non-empty — then the
new `Photo` is built (its `isPrimary` keyword being dropped) and appended
via `ArrayUnion`.  An error means the request fails and nothing is
written. -/
def uploadAppend (photos : List PhotoDoc) (photoId gcsPath stage : String)
    (imageNote fileName : Option String) (now : PyDateTime) :
    Except PyError (List PhotoDoc) :=
  match anyIsPrimary (photos.map PhotoModel.parse) with
  | .error e => .error e
  | .ok hasPrimary =>
    let newPhoto :=
      mkUploadPhotoModel photoId gcsPath stage imageNote fileName
        (!hasPrimary) now
    .ok (arrayUnion photos (preparePhotoData newPhoto))

/-- One photo-list operation of claim C1: append via the upload saga,
removal by id, or set-primary. -/
inductive PhotoOp where
  | append (photoId gcsPath stage : String)
      (imageNote fileName : Option String) (now : PyDateTime)
  | removeById (pid : String)
  | setPrimary (pid : String)
deriving DecidableEq, Repr

/-- The stored-list effect of one operation; an operation that fails
(raises before its write, or finds no matching photo) leaves the list
unchanged. -/
def applyPhotoOp (photos : List PhotoDoc) : PhotoOp → List PhotoDoc
  | .append photoId gcsPath stage imageNote fileName now =>
    match uploadAppend photos photoId gcsPath stage imageNote fileName now with
    | .error _ => photos
    | .ok l => l
  | .removeById pid => removePhotoRewrite photos pid
  | .setPrimary pid => setPrimaryList photos pid

/-- Number of stored photos whose `isPrimary` key is present and `true`. -/
def countPrimary (photos : List PhotoDoc) : Nat :=
  photos.countP (fun p => p.isPrimary = some true)

/-- Pairwise-distinct photo ids (the documented per-item invariant). -/
def DistinctIds (photos : List PhotoDoc) : Prop :=
  photos.Pairwise (fun a b => a.id ≠ b.id)

/-! ## Blob gateway (`services/gcs_service.py`) -/

/-- Python `str.startswith`, evaluated on character lists. -/
def pyStartsWith (s pre : String) : Bool :=
  pre.toList.isPrefixOf s.toList

/-- The substring after the last `.` — Python `s.rsplit(".", 1)[-1]` for a
string that contains a dot. -/
def afterLastDot (s : String) : String :=
  String.mk ((s.toList.reverse.takeWhile (fun c => !(c == '.'))).reverse)

/-- Character-list lowercasing (Python `str.lower`). -/
def pyLower (s : String) : String :=
  String.mk (s.toList.map Char.toLower)

/-- `_get_gcs_path(item_id, photo_id, original_filename)` (lines 46-62):
`items/{item_id}/{photo_id}{.ext}` with the lowercased extension of the
original filename when one is present. -/
def getGcsPath (itemId photoId : String) (originalFilename : Option String) :
    String :=
  let ext : String :=
    match originalFilename with
    | none => ""
    | some fn =>
      if fn ≠ "" ∧ fn.toList.contains '.' then
        let e := afterLastDot fn
        if e = "" then "" else "." ++ pyLower e
      else ""
  "items/" ++ itemId ++ "/" ++ photoId ++ ext

/-- The blob store: the set (as a list) of existing object paths. -/
abbrev GcsState := List String

/-- `blob.upload_from_string`: after a successful upload the path exists
(uploading over an existing path overwrites it). -/
def gcsUpload (gcs : GcsState) (path : String) : GcsState :=
  if path ∈ gcs then gcs else path :: gcs

/-- Outcome of one `delete_photo_from_gcs` call. -/
inductive GcsDeleteOutcome where
  /-- `blob.delete()` succeeded, or raised `NotFound` (blob already absent);
  either way the function returns `True`. -/
  | ok
  /-- `_ensure_gcs_client` raised `ConnectionError` (client never
  successfully initialized in this process). -/
  | raisesClientInit
  /-- `blob.delete()` raised some other exception; the function returns
  `False` and the blob remains. -/
  | faults
deriving DecidableEq, Repr

/-- `delete_photo_from_gcs(gcs_path)` (lines 104-124): `True` if deleted or
already absent, `False` on an unexpected fault (logged, not raised); only
client initialization can raise. -/
def delete_photo_from_gcs (gcs : GcsState) (path : String)
    (outcome : GcsDeleteOutcome) : Except PyError Bool × GcsState :=
  match outcome with
  | .ok => (.ok true, gcs.filter (fun q => !(q == path)))
  | .raisesClientInit => (.error .connectionError, gcs)
  | .faults => (.ok false, gcs)

/-- Outcome of the external `blob.generate_signed_url` call. -/
inductive SignOutcome where
  | ok (url : String)
  | raisesNotFound
  | raisesOther
deriving DecidableEq, Repr

/-- `generate_signed_url(gcs_path)` (lines 169-205).  `_ensure_gcs_client()`
is called before the `try` and raises `ConnectionError` when the lazily
initialized client failed to construct (`clientInitFailed`); that raise
propagates to the caller.  Otherwise the blob-existence probe
(`blob.exists()`) present in the source is commented out, so the result
is determined solely by the signing call's outcome and never consults the
blob store: a raised `NotFound` or any other exception yields `None`,
otherwise the freshly signed URL is returned. -/
def generate_signed_url (_gcs : GcsState) (_path : String)
    (clientInitFailed : Bool) (sign : SignOutcome) :
    Except PyError (Option String) :=
  if clientInitFailed then .error .connectionError
  else
    match sign with
    | .ok url => .ok (some url)
    | .raisesNotFound => .ok none
    | .raisesOther => .ok none

/-! ## The photo sagas (`routers/photos.py`) -/

/-- HTTP statuses raised by the photo router. -/
inductive HTTPStatus where
  | notFound404
  | unprocessable422
  | serverError500
  | unavailable503
deriving DecidableEq, Repr

/-- An `HTTPException(status_code, detail)` (apostrophes of the source's
detail strings omitted). -/
structure HTTPErr where
  status : HTTPStatus
  detail : String
deriving DecidableEq, Repr

/-- What the caller observes when a saga fails: a raised `HTTPException`,
or an unhandled Python exception (FastAPI turns it into a bare 500). -/
inductive SagaError where
  | http (e : HTTPErr)
  | unhandled (e : PyError)
deriving DecidableEq, Repr

/-- Combined state of the two independently-failing stores. -/
structure SysState where
  store : Store
  gcs : GcsState
deriving DecidableEq, Repr

/-- Outcome of the GCS upload step. -/
inductive GcsPutOutcome where
  | ok
  | raisesConnErr
  | raisesOther
deriving DecidableEq, Repr

/-- `remove_photo_from_item(item_id, photo_id, user_id)` of
`backend/services/firestore_service.py` (lines 389-472): ownership check,
then the stored raw photo dictionaries are filtered by id; when no entry
matches, the item is returned as-is with no write; otherwise the whole
filtered array (plus `updatedDateTime`) is written back and the item is
re-read.  `fault` models a raise from the Firestore update call. -/
def remove_photo_from_item (s : Store) (item_id photo_id : String)
    (user_id : Option String) (now : PyDateTime) (fault : FsFault) :
    Except PyError (Option PotteryItemModel) × Store :=
  let ownershipOk : Bool :=
    match user_id with
    | some uid =>
        if uid ≠ "" then (get_item_by_id s item_id user_id).isSome else true
    | none => true
  if ¬ ownershipOk then (.ok none, s)
  else
    match storeLookup s item_id with
    | none => (.ok none, s)
    | some d =>
      if d.photos.any (fun p => p.id == photo_id) then
        match fault with
        | .connErr => (.error .connectionError, s)
        | .otherErr => (.error .upstreamError, s)
        | .ok =>
          let s' := storeSet s item_id
            { d with photos := d.photos.filter (fun p => !(p.id == photo_id)),
                     updatedDateTime := some now }
          (.ok (get_item_by_id s' item_id user_id), s')
      else
        (.ok (get_item_by_id s item_id user_id), s)

/-- The `upload_photo` endpoint (`routers/photos.py` lines 90-225):
ownership-checked fetch, `has_primary` computation, content-type
validation, GCS upload, metadata append with best-effort blob-delete
compensation on failure.  Since the GCS client was used successfully in
the upload step, the compensating `delete_photo_from_gcs` cannot raise
`ConnectionError` inside this saga; its outcome is `ok` or `faults`, its
boolean result is ignored by the router.  The success path returns the
internal photo model (signed-URL response conversion omitted). -/
def upload_photo (st : SysState) (item_id uid photo_stage : String)
    (photo_note fileName contentType : Option String)
    (photoId : String) (now : PyDateTime)
    (putOutcome : GcsPutOutcome) (addFault : FsFault) (compFaults : Bool) :
    Except SagaError PhotoModel × SysState :=
  match get_item_by_id st.store item_id (some uid) with
  | none =>
    (.error (.http ⟨.notFound404,
      "Pottery item with ID " ++ item_id ++ " not found."⟩), st)
  | some item =>
    match anyIsPrimary item.photos with
    | .error e => (.error (.unhandled e), st)
    | .ok hasPrimary =>
      match contentType with
      | none =>
        (.error (.http ⟨.unprocessable422,
          "File content type is missing."⟩), st)
      | some ct =>
        if ¬ pyStartsWith ct "image/" then
          (.error (.http ⟨.unprocessable422,
            "Invalid file type. Only images are allowed."⟩), st)
        else
          let gcsPath := getGcsPath item_id photoId fileName
          match putOutcome with
          | .raisesConnErr =>
            (.error (.http ⟨.unavailable503,
              "Storage service unavailable."⟩), st)
          | .raisesOther =>
            (.error (.http ⟨.serverError500,
              "Failed to upload photo to storage."⟩), st)
          | .ok =>
            let g₁ := gcsUpload st.gcs gcsPath
            let compOutcome : GcsDeleteOutcome :=
              if compFaults then .faults else .ok
            let newPhoto :=
              mkUploadPhotoModel photoId gcsPath photo_stage photo_note
                fileName (!hasPrimary) now
            match add_photo_to_item st.store item_id newPhoto (some uid)
                now addFault with
            | (.error .connectionError, s') =>
              let (_, g') := delete_photo_from_gcs g₁ gcsPath compOutcome
              (.error (.http ⟨.unavailable503,
                "Database service unavailable."⟩),
               { store := s', gcs := g' })
            | (.error _, s') =>
              let (_, g') := delete_photo_from_gcs g₁ gcsPath compOutcome
              (.error (.http ⟨.serverError500,
                "Failed to update item with photo metadata."⟩),
               { store := s', gcs := g' })
            | (.ok none, s') =>
              let (_, g₂) := delete_photo_from_gcs g₁ gcsPath compOutcome
              let (_, g₃) := delete_photo_from_gcs g₂ gcsPath compOutcome
              (.error (.http ⟨.notFound404,
                "Item " ++ item_id ++
                  " not found when trying to add photo metadata."⟩),
               { store := s', gcs := g₃ })
            | (.ok (some updatedItem), s') =>
              match updatedItem.photos.find? (fun p => p.id == photoId) with
              | some added => (.ok added, { store := s', gcs := g₁ })
              | none =>
                let (_, g') := delete_photo_from_gcs g₁ gcsPath compOutcome
                (.error (.http ⟨.notFound404,
                  "Photo with ID " ++ photoId ++ " not found in item " ++
                    item_id ++ "."⟩),
                 { store := s', gcs := g' })

/-- The `delete_photo` endpoint (`routers/photos.py` lines 254-377):
ownership-checked fetch, photo lookup, blob delete first (any failure
aborts with the metadata untouched), then metadata removal with a final
existence check when the service reports `None`.  Note: the
`HTTPException(500, "Failed to delete photo from storage.")` raised when
the GCS delete returns `False` is raised inside a `try` whose only
handlers are `except ConnectionError` and `except Exception` — no
`except HTTPException` — so it is caught by the latter and re-raised as
`HTTPException(500, "Error during photo deletion from storage.")`; that
generic detail is what the caller actually sees. -/
def delete_photo (st : SysState) (item_id photo_id uid : String)
    (delOutcome : GcsDeleteOutcome) (removeFault : FsFault)
    (now : PyDateTime) : Except SagaError Unit × SysState :=
  match get_item_by_id st.store item_id (some uid) with
  | none =>
    (.error (.http ⟨.notFound404,
      "Pottery item with ID " ++ item_id ++ " not found."⟩), st)
  | some item =>
    match item.photos.find? (fun p => p.id == photo_id) with
    | none =>
      (.error (.http ⟨.notFound404,
        "Photo with ID " ++ photo_id ++ " not found in item " ++
          item_id ++ "."⟩), st)
    | some photoToDelete =>
      let gcsPath := photoToDelete.gcsPath
      match delete_photo_from_gcs st.gcs gcsPath delOutcome with
      | (.error _, g') =>
        (.error (.http ⟨.unavailable503, "Storage service unavailable."⟩),
         { st with gcs := g' })
      | (.ok false, g') =>
        (.error (.http ⟨.serverError500,
          "Error during photo deletion from storage."⟩),
         { st with gcs := g' })
      | (.ok true, g') =>
        match remove_photo_from_item st.store item_id photo_id (some uid)
            now removeFault with
        | (.error .connectionError, s') =>
          (.error (.http ⟨.unavailable503,
            "Database service unavailable during metadata removal."⟩),
           { store := s', gcs := g' })
        | (.error _, s') =>
          (.error (.http ⟨.serverError500,
            "Failed to remove photo metadata from item."⟩),
           { store := s', gcs := g' })
        | (.ok none, s') =>
          match get_item_by_id s' item_id (some uid) with
          | none =>
            (.error (.http ⟨.notFound404,
              "Item " ++ item_id ++
                " not found during photo metadata removal."⟩),
             { store := s', gcs := g' })
          | some _ => (.ok (), { store := s', gcs := g' })
        | (.ok (some _), s') => (.ok (), { store := s', gcs := g' })

/-! ## Sample data for witnesses and counterexamples -/

/-- A fixed aware-UTC upload time. -/
def t0 : PyDateTime := { instant := 0, tz := some utcTZ }

/-- 2024-01-01T12:00:00+00:00 as epoch seconds with UTC tzinfo. -/
def dtJan2024 : PyDateTime := { instant := 1704110400, tz := some utcTZ }

/-- A stored photo entry with the given id and stage. -/
def samplePhoto (i stage : String) : PhotoDoc :=
  { id := i, stage := stage, gcsPath := "items/i1/" ++ i ++ ".jpg",
    uploadedAt := t0, uploadedTimezone := some "UTC" }

/-- An item document with no photos, owned by `u1`. -/
def sampleItemNoPhotos : ItemDoc :=
  { user_id := "u1", name := "Mug", clayType := "Stoneware",
    currentStatus := "greenware", location := "Shelf A",
    createdDateTime := dtJan2024, createdTimezone := some "UTC",
    photos := [] }

/-- An item document with one photo, owned by `u1`. -/
def sampleItemOnePhoto : ItemDoc :=
  { sampleItemNoPhotos with photos := [samplePhoto "p1" "Greenware"] }

/-! ## Store lemmas -/

theorem storeLookup_set_self (s : Store) (i : String) (d : ItemDoc) :
    storeLookup (storeSet s i d) i = some d := by
  induction s with
  | nil => simp [storeSet, storeLookup]
  | cons kv rest ih =>
    obtain ⟨k, d₀⟩ := kv
    by_cases hk : k = i <;> simp [storeSet, storeLookup, hk, ih]

theorem storeLookup_erase_self (s : Store) (i : String) :
    storeLookup (storeErase s i) i = none := by
  induction s with
  | nil => simp [storeErase, storeLookup]
  | cons kv rest ih =>
    obtain ⟨k, d₀⟩ := kv
    by_cases hk : k = i <;> simp [storeErase, storeLookup, hk, ih]

theorem storeErase_idem (s : Store) (i : String) :
    storeErase (storeErase s i) i = storeErase s i := by
  induction s with
  | nil => simp [storeErase]
  | cons kv rest ih =>
    obtain ⟨k, d₀⟩ := kv
    by_cases hk : k = i <;> simp [storeErase, hk, ih]

/-! ## Photo-list lemmas -/

/-- `anyIsPrimary` returns a value only on the empty list: every attribute
read raises. -/
theorem anyIsPrimary_ok (l : List PhotoModel) (b : Bool)
    (h : anyIsPrimary l = .ok b) : l = [] ∧ b = false := by
  cases l with
  | nil =>
    refine ⟨rfl, ?_⟩
    simpa [anyIsPrimary] using h.symm
  | cons p rest => simp [anyIsPrimary, PhotoModel.attrIsPrimary] at h

/-- In a list with pairwise-distinct ids, at most one entry matches a given
id. -/
theorem countP_id_le_one (l : List PhotoDoc) (pid : String)
    (h : l.Pairwise (fun a b => a.id ≠ b.id)) :
    l.countP (fun p => p.id == pid) ≤ 1 := by
  induction l with
  | nil => simp
  | cons a t ih =>
    rcases List.pairwise_cons.mp h with ⟨ha, ht⟩
    by_cases hid : a.id = pid
    · have hz : t.countP (fun p => p.id == pid) = 0 := by
        refine List.countP_eq_zero.mpr ?_
        intro x hx
        simp only [beq_iff_eq]
        intro hxe
        exact (ha x hx) (by rw [hid, hxe])
      simp [List.countP_cons, hz, hid]
    · simpa [List.countP_cons, hid] using ih ht

theorem preparePhotoData_isPrimary (p : PhotoModel) :
    (preparePhotoData p).isPrimary = none := by
  unfold preparePhotoData PhotoModel.model_dump
  by_cases h : p.uploadedAt.tz.isNone <;> simp [h]

theorem PhotoModel.parse_id (d : PhotoDoc) : (PhotoModel.parse d).id = d.id :=
  rfl

theorem setPrimaryEntry_id (pid : String) (p : PhotoModel) :
    (setPrimaryEntry pid p).id = p.id := by
  unfold setPrimaryEntry
  by_cases h : p.id = pid <;> simp [h, PhotoModel.model_dump]

theorem setPrimaryEntry_isPrimary (pid : String) (p : PhotoModel) :
    (setPrimaryEntry pid p).isPrimary = some (p.id == pid) := by
  unfold setPrimaryEntry
  by_cases h : p.id = pid <;> simp [h, PhotoModel.model_dump]

/-- One photo-list operation preserves pairwise-distinct ids together with
the at-most-one-primary property. -/
theorem applyPhotoOp_preserves (photos : List PhotoDoc) (op : PhotoOp)
    (hids : DistinctIds photos) (hinv : countPrimary photos ≤ 1) :
    DistinctIds (applyPhotoOp photos op) ∧
      countPrimary (applyPhotoOp photos op) ≤ 1 := by
  cases op with
  | append photoId gcsPath stage imageNote fileName now =>
    simp only [applyPhotoOp]
    cases hup : uploadAppend photos photoId gcsPath stage imageNote
        fileName now with
    | error e => exact ⟨hids, hinv⟩
    | ok l =>
      unfold uploadAppend at hup
      cases hany : anyIsPrimary (photos.map PhotoModel.parse) with
      | error e => rw [hany] at hup; simp at hup
      | ok hp =>
        rw [hany] at hup
        simp only [Except.ok.injEq] at hup
        obtain ⟨hnil, -⟩ := anyIsPrimary_ok _ _ hany
        have hphotos : photos = [] := by
          cases photos with
          | nil => rfl
          | cons a t => simp at hnil
        subst hphotos
        have hl : l = [preparePhotoData (mkUploadPhotoModel photoId gcsPath
            stage imageNote fileName (!hp) now)] := by
          simpa [arrayUnion] using hup.symm
        subst hl
        constructor
        · exact List.pairwise_singleton _ _
        · simp [countPrimary, List.countP_cons, preparePhotoData_isPrimary]
  | removeById pid =>
    simp only [applyPhotoOp, removePhotoRewrite]
    by_cases hany : photos.any (fun p => p.id == pid)
    · simp only [hany, if_true]
      refine ⟨hids.sublist (List.filter_sublist _), ?_⟩
      exact le_trans ((List.filter_sublist _).countP_le _) hinv
    · simp only [hany]
      exact ⟨hids, hinv⟩
  | setPrimary pid =>
    simp only [applyPhotoOp, setPrimaryList]
    by_cases hany : (photos.map PhotoModel.parse).any (fun p => p.id == pid)
    · simp only [hany, if_true]
      constructor
      · unfold DistinctIds at hids ⊢
        rw [List.pairwise_map, List.pairwise_map]
        refine hids.imp ?_
        intro a b hab
        simpa [setPrimaryEntry_id, PhotoModel.parse_id] using hab
      · unfold countPrimary
        rw [List.countP_map, List.countP_map]
        refine le_trans (le_of_eq (List.countP_congr ?_))
          (countP_id_le_one photos pid hids)
        intro x hx
        simp [Function.comp, setPrimaryEntry_isPrimary, PhotoModel.parse_id]
    · simp only [hany]
      exact ⟨hids, hinv⟩

/-! ## Claim C1 -/

/-- C1 counterexample: the frozen claim's start condition (at most one
primary photo) admits a list with two photos sharing an id and no primary;
one `setPrimary` operation then marks both entries primary, so the
resulting list has two photos with `isPrimary = true`. -/
theorem C1_counterexample :
    countPrimary [samplePhoto "p" "a", samplePhoto "p" "b"] ≤ 1 ∧
    countPrimary ([PhotoOp.setPrimary "p"].foldl applyPhotoOp
        [samplePhoto "p" "a", samplePhoto "p" "b"]) = 2 := by
  decide

/-- C1 (amended: the start state additionally satisfies the documented
per-item invariant of pairwise-distinct photo ids): for every photo list
with distinct ids and at most one primary photo, every sequence of
upload-saga appends, removals by id and set-primary operations leaves at
most one photo with `isPrimary = true`. -/
theorem C1_at_most_one_primary (photos : List PhotoDoc) (ops : List PhotoOp)
    (hids : DistinctIds photos) (hinv : countPrimary photos ≤ 1) :
    countPrimary (ops.foldl applyPhotoOp photos) ≤ 1 := by
  induction ops generalizing photos with
  | nil => simpa using hinv
  | cons op rest ih =>
    simp only [List.foldl_cons]
    obtain ⟨h1, h2⟩ := applyPhotoOp_preserves photos op hids hinv
    exact ih _ h1 h2

/-- Witness for C1 at a concrete photo list and operation sequence. -/
theorem C1_at_most_one_primary_witness :
    countPrimary ([PhotoOp.append "p1" "items/i1/p1.jpg" "Greenware" none
        (some "a.jpg") t0, PhotoOp.setPrimary "p0"].foldl applyPhotoOp
        [samplePhoto "p0" "Greenware"]) ≤ 1 :=
  C1_at_most_one_primary _ _ (List.pairwise_singleton _ _) (by decide)

/-! ## Claim C2 -/

/-- C2 (code bug): `models.py` declares no `isPrimary` field on `Photo`,
so the router's auto-primary rule cannot take effect.  Uploading to an
item that already holds a photo raises `AttributeError` while computing
`has_primary` (the request fails, nothing stored), and uploading to an
empty item silently drops the `isPrimary=True` keyword: the stored photo
carries no `isPrimary` key at all instead of `isPrimary = true`. -/
theorem C2_auto_primary_broken :
    (upload_photo { store := [("i1", sampleItemOnePhoto)], gcs := [] }
        "i1" "u1" "Bisque" none (some "b.jpg") (some "image/jpeg") "p2" t0
        .ok .ok false).1
      = .error (.unhandled .attributeError) ∧
    (uploadAppend [] "p1" "items/i1/p1.jpg" "Greenware" none (some "a.jpg")
        t0).map (fun l => l.map PhotoDoc.isPrimary) = .ok [none] := by
  exact ⟨rfl, rfl⟩

/-! ## Claim C3 -/

/-- C3: a requester who is not the stored owner receives from
`get_item_by_id` exactly the same `None` ("not found") result as for an id
that does not exist at all — never a distinct "forbidden" outcome — and
the operation performs no write: the collection is returned unchanged. -/
theorem C3_not_found_indistinguishable (s : Store) (iid mid u2 : String)
    (d : ItemDoc) (hd : storeLookup s iid = some d) (hown : d.user_id ≠ u2)
    (hu : u2 ≠ "") (hmid : storeLookup s mid = none) :
    get_item_by_id_op s iid (some u2) = (none, s) ∧
    get_item_by_id_op s mid (some u2) = (none, s) ∧
    get_item_by_id_op s iid (some u2) = get_item_by_id_op s mid (some u2) := by
  have h1 : get_item_by_id_op s iid (some u2) = (none, s) := by
    simp [get_item_by_id_op, get_item_by_id, hd, hown, hu]
  have h2 : get_item_by_id_op s mid (some u2) = (none, s) := by
    simp [get_item_by_id_op, get_item_by_id, hmid]
  exact ⟨h1, h2, by rw [h1, h2]⟩

/-- Witness for C3: owner `u1`'s item requested by `user2`, versus a
missing id. -/
theorem C3_not_found_indistinguishable_witness :
    get_item_by_id_op [("i1", sampleItemNoPhotos)] "i1" (some "user2")
        = (none, [("i1", sampleItemNoPhotos)]) ∧
    get_item_by_id_op [("i1", sampleItemNoPhotos)] "missing" (some "user2")
        = (none, [("i1", sampleItemNoPhotos)]) ∧
    get_item_by_id_op [("i1", sampleItemNoPhotos)] "i1" (some "user2")
        = get_item_by_id_op [("i1", sampleItemNoPhotos)] "missing"
            (some "user2") :=
  C3_not_found_indistinguishable [("i1", sampleItemNoPhotos)] "i1" "missing"
    "user2" sampleItemNoPhotos (by decide) (by decide) (by decide) (by decide)

/-! ## Claim C6 -/

/-- C6: without a store fault, deleting an item reports `true` both when
the document existed (and is removed) and when it never existed, so two
consecutive deletes both report `true`; an ownership mismatch reports
`false` and leaves the store untouched; and a `false` result implies a
store fault or an ownership mismatch. -/
theorem C6_delete_item_semantics (s : Store) (item_id uid : String)
    (hu : uid ≠ "") :
    ((∀ d, storeLookup s item_id = some d → d.user_id = uid) →
        delete_item_and_photos s item_id (some uid) false
          = (true, storeErase s item_id) ∧
        delete_item_and_photos
            (delete_item_and_photos s item_id (some uid) false).2 item_id
            (some uid) false
          = (true, storeErase s item_id)) ∧
    (∀ d, storeLookup s item_id = some d → d.user_id ≠ uid →
        delete_item_and_photos s item_id (some uid) false = (false, s)) ∧
    (∀ fault, (delete_item_and_photos s item_id (some uid) fault).1 = false →
        fault = true ∨ ∃ d, storeLookup s item_id = some d ∧ d.user_id ≠ uid)
    := by
  refine ⟨?_, ?_, ?_⟩
  · intro hownall
    have hfirst : delete_item_and_photos s item_id (some uid) false
        = (true, storeErase s item_id) := by
      unfold delete_item_and_photos
      cases hd : storeLookup s item_id with
      | none => simp [hu, hd]
      | some d => simp [hu, hd, hownall d hd]
    refine ⟨hfirst, ?_⟩
    rw [hfirst]
    unfold delete_item_and_photos
    simp [hu, storeLookup_erase_self, storeErase_idem]
  · intro d hd hne
    unfold delete_item_and_photos
    simp [hu, hd, hne]
  · intro fault hfalse
    cases fault with
    | true => exact Or.inl rfl
    | false =>
      unfold delete_item_and_photos at hfalse
      cases hd : storeLookup s item_id with
      | none => simp [hu, hd] at hfalse
      | some d =>
        rw [hd] at hfalse
        by_cases hne : d.user_id ≠ uid
        · exact Or.inr ⟨d, rfl, hne⟩
        · simp [hu, hne] at hfalse

/-- Witness for C6: a one-item store owned by `u1`, deleted by `u1`. -/
theorem C6_delete_item_semantics_witness :
    ((∀ d, storeLookup [("i1", sampleItemNoPhotos)] "i1" = some d →
        d.user_id = "u1") →
      delete_item_and_photos [("i1", sampleItemNoPhotos)] "i1" (some "u1")
          false
        = (true, storeErase [("i1", sampleItemNoPhotos)] "i1") ∧
      delete_item_and_photos
          (delete_item_and_photos [("i1", sampleItemNoPhotos)] "i1"
            (some "u1") false).2 "i1" (some "u1") false
        = (true, storeErase [("i1", sampleItemNoPhotos)] "i1")) ∧
    (∀ d, storeLookup [("i1", sampleItemNoPhotos)] "i1" = some d →
        d.user_id ≠ "u1" →
      delete_item_and_photos [("i1", sampleItemNoPhotos)] "i1" (some "u1")
          false
        = (false, [("i1", sampleItemNoPhotos)])) ∧
    (∀ fault,
      (delete_item_and_photos [("i1", sampleItemNoPhotos)] "i1" (some "u1")
          fault).1 = false →
      fault = true ∨ ∃ d, storeLookup [("i1", sampleItemNoPhotos)] "i1"
          = some d ∧ d.user_id ≠ "u1") :=
  C6_delete_item_semantics [("i1", sampleItemNoPhotos)] "i1" "u1" (by decide)

/-! ## Claim C7 -/

/-- C7 counterexample: the existence probe of `generate_signed_url` is
commented out in the source, so signing a path whose blob does not exist
still returns a URL whenever the signing call itself succeeds — not
null. -/
theorem C7_counterexample :
    ¬ ("items/i1/p1.jpg" ∈ ([] : GcsState)) ∧
    generate_signed_url [] "items/i1/p1.jpg" false
        (.ok "https://storage.example/signed")
      = .ok (some "https://storage.example/signed") :=
  ⟨List.not_mem_nil _, rfl⟩

/-- C7 (amended): with an initialized GCS client, `generate_signed_url`
returns null exactly when the signing call raises (`NotFound` or any
other exception) — such a failure is mapped to null, never propagated as
an error — but blob existence is never consulted, so a nonexistent blob
yields null only when the signing call itself fails; and when the lazily
initialized client failed to construct, the function instead raises
`ConnectionError` to the caller (before ever reaching the signing
call). -/
theorem C7_signed_url_null_iff_sign_fails (gcs : GcsState) (path : String)
    (sign : SignOutcome) :
    (generate_signed_url gcs path false sign = .ok none ↔
      (sign = .raisesNotFound ∨ sign = .raisesOther)) ∧
    generate_signed_url gcs path true sign = .error .connectionError := by
  constructor
  · cases sign <;> simp [generate_signed_url]
  · simp [generate_signed_url]

/-! ## Claim C8 -/

/-- The create payload of the round-trip scenario. -/
def mugCreate : ItemBaseData :=
  { name := "Mug", clayType := "Stoneware", location := "Shelf A",
    createdDateTime := dtJan2024 }

/-- C8: creating an item whose `createdDateTime` is
2024-01-01T12:00:00+00:00 and retrieving it yields the very same aware-UTC
datetime (in particular the same instant), and the separately stored
`createdTimezone` is exactly `"UTC"`. -/
theorem C8_utc_round_trip :
    ((get_item_by_id (create_item [] "itemX" mugCreate "u1").2 "itemX"
        (some "u1")).map (fun it => it.createdDateTime) = some dtJan2024) ∧
    ((storeLookup (create_item [] "itemX" mugCreate "u1").2 "itemX").map
        ItemDoc.createdTimezone = some (some "UTC")) :=
  ⟨rfl, rfl⟩

/-! ## Claim C10 -/

/-- C10: a metadata patch that does not contain `createdDateTime` never
changes the stored `createdTimezone` — a `createdTimezone` value supplied
in the patch alone is discarded before the write; the field is only
rewritten together with `createdDateTime`. -/
theorem C10_created_timezone_frame (s : Store) (item_id : String)
    (u : UpdateData) (user_id : Option String) (now : PyDateTime)
    (hno : u.createdDateTime = none) :
    (storeLookup (update_item_metadata s item_id u user_id now).2
        item_id).map ItemDoc.createdTimezone
      = (storeLookup s item_id).map ItemDoc.createdTimezone := by
  unfold update_item_metadata
  cases hd : storeLookup s item_id with
  | none => simp [hd]
  | some d =>
    cases user_id with
    | none => simp [hd, hno, storeLookup_set_self, mergeDoc]
    | some uid =>
      by_cases hcond : uid ≠ "" ∧ d.user_id ≠ uid
      · simp [hd, hcond]
      · simp [hd, hcond, hno, storeLookup_set_self, mergeDoc]

/-- Witness for C10: a patch renaming the item and smuggling in a
`createdTimezone` value; the stored `createdTimezone` stays `"UTC"`. -/
theorem C10_created_timezone_frame_witness :
    (storeLookup (update_item_metadata [("i1", sampleItemNoPhotos)] "i1"
        { name := some "Renamed",
          createdTimezone := some (some "America/New_York") }
        (some "u1") t0).2 "i1").map ItemDoc.createdTimezone
      = (storeLookup [("i1", sampleItemNoPhotos)] "i1").map
          ItemDoc.createdTimezone :=
  C10_created_timezone_frame [("i1", sampleItemNoPhotos)] "i1"
    { name := some "Renamed",
      createdTimezone := some (some "America/New_York") }
    (some "u1") t0 rfl

/-! ## Claim C9 -/

/-- C9 counterexample: on a stored list holding two photos with the same
id but different contents, the ArrayRemove implementation removes only the
first matching dictionary while the rewrite implementation filters out
both, so the two final states differ. -/
theorem C9_counterexample :
    removePhotoArrayRemove [samplePhoto "p" "a", samplePhoto "p" "b"] "p" ≠
      removePhotoRewrite [samplePhoto "p" "a", samplePhoto "p" "b"] "p" := by
  decide

/-- C9 (amended: restricted to stored documents satisfying the documented
invariant that photo ids are pairwise distinct within an item): the
ArrayRemove implementation and the rewrite-by-id implementation leave the
photos list in the same final state, including the no-op case where the
id is absent. -/
theorem C9_remove_implementations_agree (photos : List PhotoDoc)
    (pid : String) (h : DistinctIds photos) :
    removePhotoArrayRemove photos pid = removePhotoRewrite photos pid := by
  induction photos with
  | nil => rfl
  | cons a t ih =>
    rcases List.pairwise_cons.mp h with ⟨ha, ht⟩
    by_cases hid : a.id = pid
    · -- head matches: ArrayRemove removes the head (the only match),
      -- rewrite filters exactly the head.
      have hfiltT : t.filter (fun p => !(p == a)) = t := by
        refine List.filter_eq_self.mpr ?_
        intro x hx
        have : ¬ (x = a) := by
          intro hxa
          exact (ha x hx) (by rw [hxa])
        simp [this]
      have hfiltT' : t.filter (fun p => !(p.id == pid)) = t := by
        refine List.filter_eq_self.mpr ?_
        intro x hx
        have : ¬ (x.id = pid) := by
          intro hxp
          exact (ha x hx) (by rw [hid, hxp])
        simp [this]
      unfold removePhotoArrayRemove removePhotoRewrite
      rw [List.find?_cons_of_pos _ (by simp [hid])]
      simp [hid, hfiltT, hfiltT']
    · -- head does not match: recurse on the tail.
      have hfind := List.find?_cons_of_neg (p := fun p => p.id == pid)
        (l := t) (a := a) (by simp [hid])
      unfold removePhotoArrayRemove removePhotoRewrite
      rw [hfind]
      cases htfind : t.find? (fun p => p.id == pid) with
      | none =>
        have hnone : ∀ x ∈ t, ¬ ((fun p : PhotoDoc => p.id == pid) x = true) :=
          List.find?_eq_none.mp htfind
        have hanyt : t.any (fun p => p.id == pid) = false := by
          rw [List.any_eq_false]
          exact hnone
        simp [List.any_cons, hid, hanyt]
      | some target =>
        have htmem : target ∈ t := List.mem_of_find?_eq_some htfind
        have htid : target.id = pid := by
          have := List.find?_some htfind
          simpa using this
        have hanyt : t.any (fun p => p.id == pid) = true := by
          rw [List.any_eq_true]
          exact ⟨target, htmem, by simp [htid]⟩
        have hane : ¬ (a = target) := by
          intro hat
          exact hid (by rw [hat, htid])
        have hih := ih ht
        unfold removePhotoArrayRemove removePhotoRewrite at hih
        rw [htfind, hanyt] at hih
        simp only [if_true] at hih
        simp [List.any_cons, hid, hanyt, List.filter_cons, hane, hih]

/-- Witness for C9 at a concrete two-photo list with distinct ids. -/
theorem C9_remove_implementations_agree_witness :
    removePhotoArrayRemove [samplePhoto "p1" "a", samplePhoto "p2" "b"] "p1"
      = removePhotoRewrite [samplePhoto "p1" "a", samplePhoto "p2" "b"] "p1"
    :=
  C9_remove_implementations_agree _ "p1" (by unfold DistinctIds; decide)

/-! ## Claim C4 -/

theorem not_mem_filter_ne_self (l : List String) (path : String) :
    path ∉ l.filter (fun q => !(q == path)) := by
  intro h
  rcases List.mem_filter.mp h with ⟨-, hq⟩
  simp at hq

/-- C4 counterexample: when the compensating blob delete itself faults,
the saga still reports the original append failure, but the uploaded blob
still exists afterward — contradicting the claim's "the blob no longer
exists afterward". -/
theorem C4_counterexample :
    (upload_photo { store := [("i1", sampleItemNoPhotos)], gcs := [] }
        "i1" "u1" "Bisque" none (some "b.jpg") (some "image/jpeg") "p2" t0
        .ok .otherErr true).1
      = .error (.http ⟨.serverError500,
          "Failed to update item with photo metadata."⟩) ∧
    "items/i1/p2.jpg" ∈
      (upload_photo { store := [("i1", sampleItemNoPhotos)], gcs := [] }
        "i1" "u1" "Bisque" none (some "b.jpg") (some "image/jpeg") "p2" t0
        .ok .otherErr true).2.gcs := by
  exact ⟨rfl, by decide⟩

/-- C4 (amended: the blob-nonexistence part holds whenever the best-effort
compensating delete does not itself fault): if the metadata-append step
fails after the blob was uploaded, the saga runs the compensating blob
delete and reports the original append failure — the same failure whatever
the compensation's outcome — leaves the metadata store untouched, and when
the compensating delete does not fault the blob no longer exists. -/
theorem C4_upload_compensation (st : SysState)
    (item_id uid stage photoId ct : String)
    (note fileName : Option String) (now : PyDateTime)
    (addFault : FsFault) (compFaults : Bool) (d : ItemDoc)
    (hlook : storeLookup st.store item_id = some d)
    (hown : d.user_id = uid) (hu : uid ≠ "")
    (hphotos : d.photos = [])
    (hct : pyStartsWith ct "image/" = true)
    (hfail : addFault ≠ .ok) :
    (upload_photo st item_id uid stage note fileName (some ct) photoId now
        .ok addFault compFaults).1
      = (if addFault = .connErr then
          .error (.http ⟨.unavailable503, "Database service unavailable."⟩)
         else
          .error (.http ⟨.serverError500,
            "Failed to update item with photo metadata."⟩)) ∧
    (upload_photo st item_id uid stage note fileName (some ct) photoId now
        .ok addFault compFaults).2.store = st.store ∧
    (compFaults = false →
      getGcsPath item_id photoId fileName ∉
        (upload_photo st item_id uid stage note fileName (some ct) photoId
          now .ok addFault compFaults).2.gcs) := by
  have hget : get_item_by_id st.store item_id (some uid)
      = some (parseItem item_id d) := by
    simp [get_item_by_id, hlook, hown]
  have hany : anyIsPrimary (parseItem item_id d).photos = .ok false := by
    simp [parseItem, hphotos, anyIsPrimary]
  have hpath := not_mem_filter_ne_self
    (gcsUpload st.gcs (getGcsPath item_id photoId fileName))
    (getGcsPath item_id photoId fileName)
  cases addFault with
  | ok => exact absurd rfl hfail
  | connErr =>
    cases compFaults with
    | false =>
      refine ⟨?_, ?_, fun _ => ?_⟩ <;>
        simp [upload_photo, hget, hany, hct, add_photo_to_item, hu,
          delete_photo_from_gcs, hpath]
    | true =>
      refine ⟨?_, ?_, fun hc => by simp at hc⟩ <;>
        simp [upload_photo, hget, hany, hct, add_photo_to_item, hu,
          delete_photo_from_gcs]
  | otherErr =>
    cases compFaults with
    | false =>
      refine ⟨?_, ?_, fun _ => ?_⟩ <;>
        simp [upload_photo, hget, hany, hct, add_photo_to_item, hu,
          delete_photo_from_gcs, hpath]
    | true =>
      refine ⟨?_, ?_, fun hc => by simp at hc⟩ <;>
        simp [upload_photo, hget, hany, hct, add_photo_to_item, hu,
          delete_photo_from_gcs]

/-- Witness for C4: a concrete one-item store, append failing with a
generic store exception, compensation succeeding. -/
theorem C4_upload_compensation_witness :
    (upload_photo { store := [("i1", sampleItemNoPhotos)], gcs := [] }
        "i1" "u1" "Bisque" none (some "b.jpg") (some "image/jpeg") "p2" t0
        .ok .otherErr false).1
      = (if FsFault.otherErr = FsFault.connErr then
          .error (.http ⟨.unavailable503, "Database service unavailable."⟩)
         else
          .error (.http ⟨.serverError500,
            "Failed to update item with photo metadata."⟩)) ∧
    (upload_photo { store := [("i1", sampleItemNoPhotos)], gcs := [] }
        "i1" "u1" "Bisque" none (some "b.jpg") (some "image/jpeg") "p2" t0
        .ok .otherErr false).2.store = [("i1", sampleItemNoPhotos)] ∧
    (false = false →
      getGcsPath "i1" "p2" (some "b.jpg") ∉
        (upload_photo { store := [("i1", sampleItemNoPhotos)], gcs := [] }
          "i1" "u1" "Bisque" none (some "b.jpg") (some "image/jpeg") "p2" t0
          .ok .otherErr false).2.gcs) :=
  C4_upload_compensation { store := [("i1", sampleItemNoPhotos)], gcs := [] }
    "i1" "u1" "Bisque" "p2" "image/jpeg" none (some "b.jpg") t0
    .otherErr false sampleItemNoPhotos (by decide) rfl (by decide) rfl
    (by decide) (by decide)

/-! ## Claim C5 -/

/-- C5: if the blob-delete step of the delete-photo saga fails (returns
`False` or raises), the saga aborts before touching metadata: the system
state is unchanged, the reported failure is the storage-step failure (the
returns-`False` case surfacing as the generic
"Error during photo deletion from storage." 500, since the router's own
`HTTPException` is swallowed by its `except Exception`), and the photo's
metadata entry is still retrievable with its original `gcsPath`. -/
theorem C5_blob_delete_failure_keeps_metadata (st : SysState)
    (item_id photo_id uid : String) (d : ItemDoc) (ph : PhotoModel)
    (removeFault : FsFault) (now : PyDateTime)
    (delOutcome : GcsDeleteOutcome)
    (hlook : storeLookup st.store item_id = some d)
    (hown : d.user_id = uid)
    (hfind : (d.photos.map PhotoModel.parse).find?
        (fun p => p.id == photo_id) = some ph)
    (hfail : delOutcome ≠ .ok) :
    (delete_photo st item_id photo_id uid delOutcome removeFault now).2 = st ∧
    (delete_photo st item_id photo_id uid delOutcome removeFault now).1
      = (if delOutcome = .raisesClientInit then
          .error (.http ⟨.unavailable503, "Storage service unavailable."⟩)
         else
          .error (.http ⟨.serverError500,
            "Error during photo deletion from storage."⟩)) ∧
    ((get_item_by_id
        ((delete_photo st item_id photo_id uid delOutcome removeFault
          now).2).store item_id (some uid)).map
        (fun it => it.photos.find? (fun p => p.id == photo_id)))
      = some (some ph) := by
  have hget : get_item_by_id st.store item_id (some uid)
      = some (parseItem item_id d) := by
    simp [get_item_by_id, hlook, hown]
  cases delOutcome with
  | ok => exact absurd rfl hfail
  | raisesClientInit =>
    refine ⟨?_, ?_, ?_⟩ <;>
      simp [delete_photo, hget, parseItem, hfind, delete_photo_from_gcs]
  | faults =>
    refine ⟨?_, ?_, ?_⟩ <;>
      simp [delete_photo, hget, parseItem, hfind, delete_photo_from_gcs]

/-- The system state of the C5 witness. -/
def c5State : SysState :=
  { store := [("i1", sampleItemOnePhoto)], gcs := ["items/i1/p1.jpg"] }

/-- Witness for C5: a concrete one-photo item whose blob delete returns
`False`. -/
theorem C5_blob_delete_failure_keeps_metadata_witness :
    (delete_photo c5State "i1" "p1" "u1" .faults .ok t0).2 = c5State ∧
    (delete_photo c5State "i1" "p1" "u1" .faults .ok t0).1
      = (if GcsDeleteOutcome.faults = GcsDeleteOutcome.raisesClientInit then
          .error (.http ⟨.unavailable503, "Storage service unavailable."⟩)
         else
          .error (.http ⟨.serverError500,
            "Error during photo deletion from storage."⟩)) ∧
    ((get_item_by_id ((delete_photo c5State "i1" "p1" "u1" .faults .ok
        t0).2).store "i1" (some "u1")).map
        (fun it => it.photos.find? (fun p => p.id == "p1")))
      = some (some (PhotoModel.parse (samplePhoto "p1" "Greenware"))) :=
  C5_blob_delete_failure_keeps_metadata c5State "i1" "p1" "u1"
    sampleItemOnePhoto (PhotoModel.parse (samplePhoto "p1" "Greenware"))
    .ok t0 .faults (by decide) rfl (by decide) (by decide)

end Pottery
